import Mathlib

/-!
# Verification of `data_generation.py` (bouncing-square sequence generator)

Shallow embedding of the data-generation pipeline: a square body bouncing
inside a 16×16 box, simulated one fixed time step at a time and rasterized
into 16×16 one-bit frames.

Numeric convention: the Python floats are embedded as rationals (`ℚ`).
The trigonometric functions `np.cos` / `np.sin` used once, to convert the
polar initial velocity, are threaded through as function parameters
`cosF sinF : ℚ → ℚ` so that every theorem holds for the actual cosine/sine.
-/

/-! ## Constants (lines 9–12 of the source) -/

def IMAGE_HEIGHT : ℕ := 16

def IMAGE_WIDTH : ℕ := 16

def SHAPE_SIDE_LENGTH : ℚ := 0

def FPS : ℕ := 60

/-! ## The physics scene (`simulate_motion`, lines 32–59)

The pymunk objects built by `simulate_motion` are embedded structurally:
one dynamic body, its box collision shape, and four static boundary
segments, each a plain record of the constructor arguments the source
passes to pymunk. -/

/-- One static line collider: `pymunk.Segment(static_body, a, b, radius)`
with its `elasticity` attribute. -/
structure SegmentDef where
  a : ℚ × ℚ
  b : ℚ × ℚ
  radius : ℚ
  elasticity : ℚ
  deriving Repr, DecidableEq

/-- The dynamic body: `pymunk.Body(mass, moment)` with its `position` and
`velocity` attributes. -/
structure BodyDef where
  mass : ℚ
  moment : ℚ
  position : ℚ × ℚ
  velocity : ℚ × ℚ
  deriving Repr, DecidableEq

/-- The body's collision shape: `pymunk.Poly.create_box(body, size)` with
its `elasticity` attribute. -/
structure ShapeDef where
  size : ℚ × ℚ
  elasticity : ℚ
  deriving Repr, DecidableEq

/-- The scene handed to the solver: `pymunk.Space()` with its `gravity`,
the one dynamic body and shape added to it, and the four static lines. -/
structure SpaceDef where
  gravity : ℚ × ℚ
  body : BodyDef
  shape : ShapeDef
  static_lines : List SegmentDef
  deriving Repr, DecidableEq

/-- `pymunk.moment_for_box(mass, (w, h)) = mass * (w² + h²) / 12`. -/
def moment_for_box (mass : ℚ) (size : ℚ × ℚ) : ℚ :=
  mass * (size.1 ^ 2 + size.2 ^ 2) / 12

/-- The scene `simulate_motion` builds before stepping (source lines 32–59):
gravity `(0, -gravity)`; one body of mass 1 with the moment of a box of side
`SHAPE_SIDE_LENGTH + 1`, at the given position/velocity; a box collision
shape of the same side with elasticity `restitution`; and four static
segments of radius 1 along the edges of the 16×16 rectangle (the source's
comments label them Left, Bottom, Right, Top), each with elasticity
`restitution`. -/
def buildSpace (initial_pos velocity : ℚ × ℚ) (gravity restitution : ℚ) : SpaceDef :=
  { gravity := (0, -gravity)
    body :=
      { mass := 1
        moment := moment_for_box 1 (SHAPE_SIDE_LENGTH + 1, SHAPE_SIDE_LENGTH + 1)
        position := initial_pos
        velocity := velocity }
    shape :=
      { size := (SHAPE_SIDE_LENGTH + 1, SHAPE_SIDE_LENGTH + 1)
        elasticity := restitution }
    static_lines :=
      [ { a := (0, 0), b := (0, (IMAGE_HEIGHT : ℚ)), radius := 1, elasticity := restitution },
        { a := (0, (IMAGE_HEIGHT : ℚ)), b := ((IMAGE_WIDTH : ℚ), (IMAGE_HEIGHT : ℚ)),
          radius := 1, elasticity := restitution },
        { a := ((IMAGE_WIDTH : ℚ), (IMAGE_HEIGHT : ℚ)), b := ((IMAGE_WIDTH : ℚ), 0),
          radius := 1, elasticity := restitution },
        { a := ((IMAGE_WIDTH : ℚ), 0), b := (0, 0), radius := 1, elasticity := restitution } ] }

/-- Distance from a segment's line at which the body's centre makes contact
along the x-axis: the segment's thickness radius plus half the collision
box's width. -/
def contactDistX (sp : SpaceDef) (seg : SegmentDef) : ℚ :=
  seg.radius + sp.shape.size.1 / 2

/-- Distance from a segment's line at which the body's centre makes contact
along the y-axis: the segment's thickness radius plus half the collision
box's height. -/
def contactDistY (sp : SpaceDef) (seg : SegmentDef) : ℚ :=
  seg.radius + sp.shape.size.2 / 2

/-- Modelled from the spec: contact resolution of the external rigid-body
solver (`space.step` of pymunk, not part of this repository) against one
axis-aligned segment.  Per §4.1 of the spec, wall collisions are resolved by
standard restitution-based contact resolution: when the integrated position
crosses the segment's contact surface (its line offset by the contact
distance) coming from the side the body occupied before the step, the centre
is placed on the contact surface and the normal velocity component is
reflected scaled by the contact elasticity `e`.  Segments that are neither
vertical nor horizontal are not resolved (none occur in this program). -/
def resolveSeg (e dx dy : ℚ) (p0 : ℚ × ℚ) (seg : SegmentDef)
    (s : (ℚ × ℚ) × (ℚ × ℚ)) : (ℚ × ℚ) × (ℚ × ℚ) :=
  if seg.a.1 = seg.b.1 then
    if p0.1 ≥ seg.a.1 + dx ∧ s.1.1 < seg.a.1 + dx then
      ((seg.a.1 + dx, s.1.2), (-(e * s.2.1), s.2.2))
    else if p0.1 ≤ seg.a.1 - dx ∧ s.1.1 > seg.a.1 - dx then
      ((seg.a.1 - dx, s.1.2), (-(e * s.2.1), s.2.2))
    else s
  else if seg.a.2 = seg.b.2 then
    if p0.2 ≥ seg.a.2 + dy ∧ s.1.2 < seg.a.2 + dy then
      ((s.1.1, seg.a.2 + dy), (s.2.1, -(e * s.2.2)))
    else if p0.2 ≤ seg.a.2 - dy ∧ s.1.2 > seg.a.2 - dy then
      ((s.1.1, seg.a.2 - dy), (s.2.1, -(e * s.2.2)))
    else s
  else s

/-- Modelled from the spec: one call to `space.step(dt)` of the external
rigid-body solver (pymunk, not part of this repository).  Per §4.1 of the
spec: gravity acts as an acceleration `sp.gravity` (symplectic Euler — the
velocity is updated first, then the position by the new velocity, which is
pymunk's documented integration), after which wall contacts are resolved
against each static segment with restitution; the contact elasticity of a
shape–segment pair is the product of the two elasticity values (pymunk's
combination rule).  No friction, no damping, no rotation (no torque ever
arises in this scene). -/
def stepSpace (sp : SpaceDef) (dt : ℚ) : (ℚ × ℚ) × (ℚ × ℚ) :=
  let v1 := (sp.body.velocity.1 + sp.gravity.1 * dt, sp.body.velocity.2 + sp.gravity.2 * dt)
  let p1 := (sp.body.position.1 + v1.1 * dt, sp.body.position.2 + v1.2 * dt)
  sp.static_lines.foldl
    (fun s seg =>
      resolveSeg (sp.shape.elasticity * seg.elasticity)
        (contactDistX sp seg) (contactDistY sp seg) sp.body.position seg s)
    (p1, v1)

/-- `simulate_motion` (source lines 14–68): build the fresh scene, advance
the solver by `time_step`, read back position and velocity. -/
def simulate_motion (initial_pos velocity : ℚ × ℚ) (gravity restitution time_step : ℚ) :
    (ℚ × ℚ) × (ℚ × ℚ) :=
  stepSpace (buildSpace initial_pos velocity gravity restitution) time_step

/-! ## Rasterization (`draw_frame`, lines 71–85)

A PIL mode-"1" image is embedded as a size plus a pixel predicate
(`true` = black, the background `Image.new(..., "white")` being all
`false`).  PIL's `ImageDraw.rectangle` receives float coordinates and casts
them to C integers (truncation toward zero); writes outside the canvas are
clipped. -/

/-- Truncation toward zero, the C `(int)` cast PIL applies to the float
rectangle coordinates: the integer quotient of the reduced fraction
(`Int.tdiv` rounds toward zero). -/
def truncQ (q : ℚ) : ℤ :=
  Int.tdiv q.num (q.den : ℤ)

/-- A raster image: its size and which pixels are black. -/
structure Img where
  width : ℕ
  height : ℕ
  pixel : ℕ → ℕ → Bool

/-- `Image.new("1", (w, h), "white")`: an all-white image. -/
def Img.new (w h : ℕ) : Img :=
  { width := w, height := h, pixel := fun _ _ => false }

/-- `ImageDraw.rectangle([x0, y0, x1, y1], fill="black")`: fill every canvas
pixel whose (truncated-coordinate) position lies in the closed rectangle;
pixels outside the canvas are clipped (no error is raised). -/
def Img.rectangle (im : Img) (x0 y0 x1 y1 : ℚ) : Img :=
  { width := im.width
    height := im.height
    pixel := fun i j =>
      if truncQ x0 ≤ (i : ℤ) ∧ (i : ℤ) ≤ truncQ x1 ∧
          truncQ y0 ≤ (j : ℤ) ∧ (j : ℤ) ≤ truncQ y1 ∧
          i < im.width ∧ j < im.height then
        true
      else
        im.pixel i j }

/-- `draw_frame` (source lines 71–85): a fresh white 16×16 1-bit image with
the square drawn in black from `position` to
`position + (SHAPE_SIDE_LENGTH, SHAPE_SIDE_LENGTH)`. -/
def draw_frame (position : ℚ × ℚ) : Img :=
  Img.rectangle (Img.new IMAGE_WIDTH IMAGE_HEIGHT)
    position.1 position.2
    (position.1 + SHAPE_SIDE_LENGTH) (position.2 + SHAPE_SIDE_LENGTH)

/-! ## Sequence generation (`generate_sequence`, lines 88–127) -/

/-- The physics→image coordinate adjustment of source lines 119–122:
`(position[0], IMAGE_HEIGHT - position[1] - SHAPE_SIDE_LENGTH)`. -/
def adjPos (q : ℚ × ℚ) : ℚ × ℚ :=
  (q.1, (IMAGE_HEIGHT : ℚ) - q.2 - SHAPE_SIDE_LENGTH)

/-- The frame loop of `generate_sequence` (source lines 107–126): for each
frame, advance `simulate_motion` `frame_rate` times with
`time_step = 1/60`, threading position and velocity through, then draw the
adjusted position and record the raw physics position. -/
def genLoop (gravity restitution : ℚ) (frame_rate : ℕ) :
    ℕ → (ℚ × ℚ) × (ℚ × ℚ) → List Img × List (ℚ × ℚ)
  | 0, _ => ([], [])
  | n + 1, s =>
    let s' := (fun t => simulate_motion t.1 t.2 gravity restitution (1 / 60))^[frame_rate] s
    let rest := genLoop gravity restitution frame_rate n s'
    (draw_frame (adjPos s'.1) :: rest.1, s'.1 :: rest.2)

/-- `generate_sequence` (source lines 88–127).  `cosF`/`sinF` stand for
`np.cos`/`np.sin`; the initial velocity is
`(initial_speed * cosF initial_direction, -(initial_speed * sinF initial_direction))`
exactly as on source lines 102–105. -/
def generate_sequence (cosF sinF : ℚ → ℚ) (sequence_length : ℕ)
    (initial_speed initial_direction : ℚ) (initial_position : ℚ × ℚ)
    (gravity coefficient_of_restitution : ℚ) (frame_rate : ℕ) :
    List Img × List (ℚ × ℚ) :=
  genLoop gravity coefficient_of_restitution frame_rate sequence_length
    (initial_position,
      (initial_speed * cosF initial_direction,
        -(initial_speed * sinF initial_direction)))

/-! ## Random scenario sampling (`generate_random_sequence`, lines 130–168) -/

/-- The parameter list of `generate_random_sequence` with its default
values (source lines 130–145).  `npPi` stands for the float constant
`np.pi` appearing in the default `direction_max = 2 * np.pi`. -/
structure RandomSeqArgs where
  sequence_length : ℕ
  frame_rate : ℕ
  speed_min : ℚ
  speed_max : ℚ
  direction_min : ℚ
  direction_max : ℚ
  position_x_min : ℚ
  position_x_max : ℚ
  position_y_min : ℚ
  position_y_max : ℚ
  gravity_min : ℚ
  gravity_max : ℚ
  restitution_min : ℚ
  restitution_max : ℚ
  deriving Repr, DecidableEq

/-- The default arguments of `generate_random_sequence` (source
lines 130–145). -/
def defaultRandomArgs (npPi : ℚ) : RandomSeqArgs :=
  { sequence_length := 10
    frame_rate := 30
    speed_min := 0
    speed_max := 10
    direction_min := 0
    direction_max := 2 * npPi
    position_x_min := 0
    position_x_max := 16
    position_y_min := 0
    position_y_max := 16
    gravity_min := 5
    gravity_max := 10
    restitution_min := 1 / 2
    restitution_max := 1 }

/-- The `[min, max]` range pairs of the sampler's interface, in source
order: speed, direction, position x, position y, gravity, restitution. -/
def rangePairs (a : RandomSeqArgs) : List (ℚ × ℚ) :=
  [ (a.speed_min, a.speed_max),
    (a.direction_min, a.direction_max),
    (a.position_x_min, a.position_x_max),
    (a.position_y_min, a.position_y_max),
    (a.gravity_min, a.gravity_max),
    (a.restitution_min, a.restitution_max) ]

/-- Modelled from the spec: `np.random.uniform(lo, hi)` (external library
call), written as the affine map of a unit sample `u ∈ [0, 1]`:
`lo + u * (hi - lo)`. -/
def uniformSample (lo hi u : ℚ) : ℚ :=
  lo + u * (hi - lo)

/-- `generate_random_sequence` (source lines 130–168), with the randomness
externalized: `u1 … u6` are the six independent unit samples consumed by the
six `np.random.uniform` calls, in source order.  Each parameter is sampled
from its own range and its own unit sample only, then `generate_sequence`
is called with the sampled values. -/
def generate_random_sequence (cosF sinF : ℚ → ℚ) (a : RandomSeqArgs)
    (u1 u2 u3 u4 u5 u6 : ℚ) : List Img × List (ℚ × ℚ) :=
  generate_sequence cosF sinF a.sequence_length
    (uniformSample a.speed_min a.speed_max u1)
    (uniformSample a.direction_min a.direction_max u2)
    (uniformSample a.position_x_min a.position_x_max u3,
      uniformSample a.position_y_min a.position_y_max u4)
    (uniformSample a.gravity_min a.gravity_max u5)
    (uniformSample a.restitution_min a.restitution_max u6)
    a.frame_rate

/-! ## Helper lemmas

Batteries marks the rational-number arithmetic `@[irreducible]`, which only
guides elaboration; restoring semireducibility locally lets `decide` and
`rfl` evaluate the embedded program on concrete inputs. -/

section

attribute [local semireducible] Rat.add Rat.mul Rat.sub Rat.inv Rat.ofScientific

/-- Pointwise characterization of `draw_frame`: a pixel is black exactly
when it lies on the canvas and inside the (coordinate-truncated) closed
rectangle of side `SHAPE_SIDE_LENGTH` at `pos`. -/
lemma draw_frame_pixel_iff (pos : ℚ × ℚ) (i j : ℕ) :
    (draw_frame pos).pixel i j = true ↔
      truncQ pos.1 ≤ (i : ℤ) ∧ (i : ℤ) ≤ truncQ (pos.1 + SHAPE_SIDE_LENGTH) ∧
        truncQ pos.2 ≤ (j : ℤ) ∧ (j : ℤ) ≤ truncQ (pos.2 + SHAPE_SIDE_LENGTH) ∧
        i < IMAGE_WIDTH ∧ j < IMAGE_HEIGHT := by
  simp only [draw_frame, Img.rectangle, Img.new]
  split_ifs with h
  · simp [h]
  · simpa using h

lemma draw_frame_width (pos : ℚ × ℚ) : (draw_frame pos).width = IMAGE_WIDTH := rfl

lemma draw_frame_height (pos : ℚ × ℚ) : (draw_frame pos).height = IMAGE_HEIGHT := rfl

/-! ## Claim theorems -/

/-- C4: on every call the motion stepper builds a fresh scene with exactly
one dynamic body of mass 1, moment of inertia and collision shape both a box
of side `SHAPE_SIDE_LENGTH + 1`, initialized from the input position and
velocity, gravity `(0, -gravity)` (negative vertical axis, magnitude
`gravity`), four fixed segments along the edges of the 16×16 rectangle, and
elasticity `restitution` on the shape and on each segment. -/
theorem C4_scene_construction (p v : ℚ × ℚ) (g e : ℚ) :
    (buildSpace p v g e).body.mass = 1 ∧
      (buildSpace p v g e).body.moment =
        moment_for_box 1 (SHAPE_SIDE_LENGTH + 1, SHAPE_SIDE_LENGTH + 1) ∧
      (buildSpace p v g e).shape.size = (SHAPE_SIDE_LENGTH + 1, SHAPE_SIDE_LENGTH + 1) ∧
      (buildSpace p v g e).body.position = p ∧
      (buildSpace p v g e).body.velocity = v ∧
      (buildSpace p v g e).gravity = (0, -g) ∧
      (buildSpace p v g e).shape.elasticity = e ∧
      ((buildSpace p v g e).static_lines.map fun l => (l.a, l.b)) =
        [((0, 0), (0, 16)), ((0, 16), (16, 16)), ((16, 16), (16, 0)), ((16, 0), (0, 0))] ∧
      (buildSpace p v g e).static_lines.length = 4 ∧
      ∀ l ∈ (buildSpace p v g e).static_lines, l.elasticity = e := by
  refine ⟨rfl, rfl, rfl, rfl, rfl, rfl, rfl, ?_, rfl, ?_⟩
  · norm_num [buildSpace, IMAGE_HEIGHT, IMAGE_WIDTH]
  · intro l hl
    simp only [buildSpace, List.mem_cons, List.not_mem_nil, or_false] at hl
    rcases hl with h | h | h | h <;> subst h <;> rfl

/-- C6: for every position, `draw_frame` yields a fixed 16×16 one-bit image
that is white everywhere except the axis-aligned square from `pos` to
`pos + (SHAPE_SIDE_LENGTH, SHAPE_SIDE_LENGTH)`, both corners included,
which is black (coordinates truncated to the pixel grid as PIL does). -/
theorem C6_raster_rectangle (pos : ℚ × ℚ) (i j : ℕ) :
    (draw_frame pos).width = 16 ∧ (draw_frame pos).height = 16 ∧
      ((draw_frame pos).pixel i j = true ↔
        truncQ pos.1 ≤ (i : ℤ) ∧ (i : ℤ) ≤ truncQ (pos.1 + SHAPE_SIDE_LENGTH) ∧
          truncQ pos.2 ≤ (j : ℤ) ∧ (j : ℤ) ≤ truncQ (pos.2 + SHAPE_SIDE_LENGTH) ∧
          i < 16 ∧ j < 16) := by
  exact ⟨rfl, rfl, draw_frame_pixel_iff pos i j⟩

/-- C7: for every position, in-bounds or not, `draw_frame` totally computes
a 16×16 one-bit image, and every black pixel lies both on the canvas and in
the requested rectangle — the drawn rectangle is clipped to the image
bounds. -/
theorem C7_raster_clipping (pos : ℚ × ℚ) (i j : ℕ)
    (h : (draw_frame pos).pixel i j = true) :
    (draw_frame pos).width = 16 ∧ (draw_frame pos).height = 16 ∧
      i < 16 ∧ j < 16 ∧
      truncQ pos.1 ≤ (i : ℤ) ∧ (i : ℤ) ≤ truncQ (pos.1 + SHAPE_SIDE_LENGTH) ∧
      truncQ pos.2 ≤ (j : ℤ) ∧ (j : ℤ) ≤ truncQ (pos.2 + SHAPE_SIDE_LENGTH) := by
  obtain ⟨h1, h2, h3, h4, h5, h6⟩ := (draw_frame_pixel_iff pos i j).mp h
  exact ⟨rfl, rfl, h5, h6, h1, h2, h3, h4⟩

/-- C7 witness: at position (0, 0) the pixel (0, 0) is black and the
clipping bounds hold there. -/
theorem C7_raster_clipping_witness :
    (draw_frame ((0 : ℚ), (0 : ℚ))).width = 16 ∧
      (draw_frame ((0 : ℚ), (0 : ℚ))).height = 16 ∧
      (0 : ℕ) < 16 ∧ (0 : ℕ) < 16 ∧
      truncQ (0 : ℚ) ≤ ((0 : ℕ) : ℤ) ∧
      ((0 : ℕ) : ℤ) ≤ truncQ ((0 : ℚ) + SHAPE_SIDE_LENGTH) ∧
      truncQ (0 : ℚ) ≤ ((0 : ℕ) : ℤ) ∧
      ((0 : ℕ) : ℤ) ≤ truncQ ((0 : ℚ) + SHAPE_SIDE_LENGTH) :=
  C7_raster_clipping ((0 : ℚ), (0 : ℚ)) 0 0 (by decide)

/-- Closed form of the frame loop: the k-th recorded state is the initial
state advanced by `(k+1) * frame_rate` sub-steps. -/
lemma genLoop_eq (g e : ℚ) (fr : ℕ) :
    ∀ (n : ℕ) (s : (ℚ × ℚ) × (ℚ × ℚ)),
      genLoop g e fr n s =
        ((List.range n).map fun k =>
            draw_frame (adjPos
              (((fun t => simulate_motion t.1 t.2 g e (1 / 60))^[fr])^[k + 1] s).1),
          (List.range n).map fun k =>
            (((fun t => simulate_motion t.1 t.2 g e (1 / 60))^[fr])^[k + 1] s).1) := by
  intro n
  induction n with
  | zero => intro s; simp [genLoop]
  | succ m ih =>
    intro s
    rw [genLoop, ih]
    simp only [List.range_succ_eq_map, List.map_cons, List.map_map, Function.comp,
      Function.iterate_succ_apply, Function.iterate_one]
    constructor


/-- C2: every frame is rasterized from the image-coordinate conversion of
the recorded physics position: `y_image = H - y_physics - s` with `H = 16`
and `s = SHAPE_SIDE_LENGTH`, the x-coordinate unchanged. -/
theorem C2_coordinate_conversion (cosF sinF : ℚ → ℚ) (n : ℕ)
    (speed dir : ℚ) (p0 : ℚ × ℚ) (g e : ℚ) (fr : ℕ) :
    (∀ q : ℚ × ℚ, adjPos q = (q.1, 16 - q.2 - SHAPE_SIDE_LENGTH)) ∧
      (generate_sequence cosF sinF n speed dir p0 g e fr).1 =
        ((generate_sequence cosF sinF n speed dir p0 g e fr).2).map
          (fun q => draw_frame (q.1, 16 - q.2 - SHAPE_SIDE_LENGTH)) := by
  have hadj : ∀ q : ℚ × ℚ, adjPos q = (q.1, 16 - q.2 - SHAPE_SIDE_LENGTH) := by
    intro q
    simp [adjPos, IMAGE_HEIGHT]
  refine ⟨hadj, ?_⟩
  simp only [generate_sequence, genLoop_eq, List.map_map, Function.comp, hadj]
  rfl

/-- C3: `generate_sequence` converts the polar initial speed/direction to
the velocity `(speed * cos dir, -(speed * sin dir))`, then for each of the
`n` frames applies the motion stepper `frame_rate` times with
`time_step = 1/60`, threading position and velocity through; the k-th frame
is rasterized from the image-coordinate conversion of the reached position
and the k-th recorded position is the raw physics position. -/
theorem C3_sequence_algorithm (cosF sinF : ℚ → ℚ) (n : ℕ)
    (speed dir : ℚ) (p0 : ℚ × ℚ) (g e : ℚ) (fr : ℕ) :
    generate_sequence cosF sinF n speed dir p0 g e fr =
      ((List.range n).map fun k =>
          draw_frame (adjPos
            (((fun t => simulate_motion t.1 t.2 g e (1 / 60))^[fr])^[k + 1]
              (p0, (speed * cosF dir, -(speed * sinF dir)))).1),
        (List.range n).map fun k =>
          (((fun t => simulate_motion t.1 t.2 g e (1 / 60))^[fr])^[k + 1]
            (p0, (speed * cosF dir, -(speed * sinF dir)))).1) := by
  rw [generate_sequence, genLoop_eq]

/-- C8: the sequence generator is deterministic — two calls with identical
inputs (and the same deterministic underlying step, here literally the same
pure function) return identical frame and position sequences. -/
theorem C8_deterministic (cosF sinF : ℚ → ℚ) (n n' : ℕ)
    (speed speed' dir dir' : ℚ) (p0 p0' : ℚ × ℚ) (g g' e e' : ℚ) (fr fr' : ℕ)
    (hn : n = n') (hs : speed = speed') (hd : dir = dir') (hp : p0 = p0')
    (hg : g = g') (he : e = e') (hf : fr = fr') :
    generate_sequence cosF sinF n speed dir p0 g e fr =
      generate_sequence cosF sinF n' speed' dir' p0' g' e' fr' := by
  subst hn hs hd hp hg he hf
  rfl

/-- C8 witness: two calls at the concrete inputs of the spec's §8 scenario
return the same sequences. -/
theorem C8_deterministic_witness :
    generate_sequence (fun _ => 1) (fun _ => 0) 1 0 0 (8, 8) 0 1 1 =
      generate_sequence (fun _ => 1) (fun _ => 0) 1 0 0 (8, 8) 0 1 1 :=
  C8_deterministic (fun _ => 1) (fun _ => 0) 1 1 0 0 0 0 (8, 8) (8, 8) 0 0 1 1 1 1
    rfl rfl rfl rfl rfl rfl rfl

/-- C1: the spec's concrete scenario — one frame, zero speed, zero gravity,
restitution 1, frame rate 1, start (8, 8): the square is drawn at image
position `(8, 16 - 8 - SHAPE_SIDE_LENGTH)` and the one recorded physics
position is `(8, 8)`; no motion occurs. -/
theorem C1_concrete_scenario (cosF sinF : ℚ → ℚ) :
    generate_sequence cosF sinF 1 0 0 (8, 8) 0 1 1 =
      ([draw_frame (8, 16 - 8 - SHAPE_SIDE_LENGTH)], [(8, 8)]) := by
  have hv : ((0 : ℚ) * cosF 0, -((0 : ℚ) * sinF 0)) = ((0 : ℚ), (0 : ℚ)) := by
    norm_num
  rw [generate_sequence, hv]
  rfl

/-- One-dimensional contact resolution against the wall line `w` with
contact distance `d`: the position action of `resolveSeg` along the
segment's normal axis. -/
def axisResolve (w d q0 q : ℚ) : ℚ :=
  if q0 ≥ w + d ∧ q < w + d then w + d
  else if q0 ≤ w - d ∧ q > w - d then w - d
  else q

lemma resolveSeg_vert_pos (e dx dy : ℚ) (p0 : ℚ × ℚ) (seg : SegmentDef)
    (s : (ℚ × ℚ) × (ℚ × ℚ)) (h : seg.a.1 = seg.b.1) :
    (resolveSeg e dx dy p0 seg s).1 = (axisResolve seg.a.1 dx p0.1 s.1.1, s.1.2) := by
  simp only [resolveSeg, axisResolve, if_pos h]
  split_ifs <;> rfl

lemma resolveSeg_horiz_pos (e dx dy : ℚ) (p0 : ℚ × ℚ) (seg : SegmentDef)
    (s : (ℚ × ℚ) × (ℚ × ℚ)) (h1 : ¬ seg.a.1 = seg.b.1) (h2 : seg.a.2 = seg.b.2) :
    (resolveSeg e dx dy p0 seg s).1 = (s.1.1, axisResolve seg.a.2 dy p0.2 s.1.2) := by
  simp only [resolveSeg, axisResolve, if_neg h1, if_pos h2]
  split_ifs <;> rfl

/-- The position returned by one `simulate_motion` step: symplectic-Euler
integration, then x-resolution against the walls `x = 0` and `x = 16` and
y-resolution against the walls `y = 16` and `y = 0`, each with contact
distance `3/2` (segment radius 1 plus half the collision box side). -/
lemma simulate_motion_pos (p v : ℚ × ℚ) (g e dt : ℚ) :
    (simulate_motion p v g e dt).1 =
      (axisResolve 16 (3/2) p.1 (axisResolve 0 (3/2) p.1 (p.1 + (v.1 + 0 * dt) * dt)),
        axisResolve 0 (3/2) p.2
          (axisResolve 16 (3/2) p.2 (p.2 + (v.2 + -g * dt) * dt))) := by
  simp only [simulate_motion, stepSpace, buildSpace, List.foldl, contactDistX, contactDistY]
  rw [resolveSeg_horiz_pos, resolveSeg_vert_pos, resolveSeg_horiz_pos, resolveSeg_vert_pos]
  · norm_num [SHAPE_SIDE_LENGTH, IMAGE_HEIGHT, IMAGE_WIDTH]
  all_goals norm_num [IMAGE_HEIGHT, IMAGE_WIDTH]

lemma axisResolve_left_low (q0 q : ℚ) (h1 : 3/2 ≤ q0) :
    3/2 ≤ axisResolve 0 (3/2) q0 q := by
  unfold axisResolve
  by_cases c1 : q0 ≥ 0 + 3/2 ∧ q < 0 + 3/2
  · rw [if_pos c1]; norm_num
  · rw [if_neg c1]
    by_cases c2 : q0 ≤ 0 - 3/2 ∧ q > 0 - 3/2
    · exfalso; linarith [c2.1]
    · rw [if_neg c2]
      by_cases hq : q < 0 + 3/2
      · exact absurd ⟨by linarith, hq⟩ c1
      · linarith [not_lt.mp hq]

lemma axisResolve_right_bounds (q0 r : ℚ) (hr : 3/2 ≤ r) (h2 : q0 ≤ 29/2) :
    3/2 ≤ axisResolve 16 (3/2) q0 r ∧ axisResolve 16 (3/2) q0 r ≤ 29/2 := by
  unfold axisResolve
  by_cases d1 : q0 ≥ 16 + 3/2 ∧ r < 16 + 3/2
  · exfalso; linarith [d1.1]
  · rw [if_neg d1]
    by_cases d2 : q0 ≤ 16 - 3/2 ∧ r > 16 - 3/2
    · rw [if_pos d2]; norm_num
    · rw [if_neg d2]
      by_cases hq : r > 16 - 3/2
      · exact absurd ⟨by linarith, hq⟩ d2
      · constructor
        · linarith
        · linarith [not_lt.mp hq]

lemma axisResolve_right_high (q0 q : ℚ) (h2 : q0 ≤ 29/2) :
    axisResolve 16 (3/2) q0 q ≤ 29/2 := by
  unfold axisResolve
  by_cases d1 : q0 ≥ 16 + 3/2 ∧ q < 16 + 3/2
  · exfalso; linarith [d1.1]
  · rw [if_neg d1]
    by_cases d2 : q0 ≤ 16 - 3/2 ∧ q > 16 - 3/2
    · rw [if_pos d2]; norm_num
    · rw [if_neg d2]
      by_cases hq : q > 16 - 3/2
      · exact absurd ⟨by linarith, hq⟩ d2
      · linarith [not_lt.mp hq]

lemma axisResolve_left_bounds (q0 r : ℚ) (hr : r ≤ 29/2) (h1 : 3/2 ≤ q0) :
    3/2 ≤ axisResolve 0 (3/2) q0 r ∧ axisResolve 0 (3/2) q0 r ≤ 29/2 := by
  unfold axisResolve
  by_cases c1 : q0 ≥ 0 + 3/2 ∧ r < 0 + 3/2
  · rw [if_pos c1]; norm_num
  · rw [if_neg c1]
    by_cases c2 : q0 ≤ 0 - 3/2 ∧ r > 0 - 3/2
    · exfalso; linarith [c2.1]
    · rw [if_neg c2]
      by_cases hq : r < 0 + 3/2
      · exact absurd ⟨by linarith, hq⟩ c1
      · constructor
        · linarith [not_lt.mp hq]
        · linarith

/-- Core invariant of the modelled stepper: a body whose centre starts the
step inside `[3/2, 29/2] × [3/2, 29/2]` (the region bounded by the four
contact surfaces) is still inside it after the step, whatever the velocity,
gravity, restitution and time step. -/
lemma stepSpace_core (p v : ℚ × ℚ) (g e dt : ℚ)
    (hx1 : 3/2 ≤ p.1) (hx2 : p.1 ≤ 29/2) (hy1 : 3/2 ≤ p.2) (hy2 : p.2 ≤ 29/2) :
    3/2 ≤ (simulate_motion p v g e dt).1.1 ∧ (simulate_motion p v g e dt).1.1 ≤ 29/2 ∧
      3/2 ≤ (simulate_motion p v g e dt).1.2 ∧ (simulate_motion p v g e dt).1.2 ≤ 29/2 := by
  rw [simulate_motion_pos]
  have hx := axisResolve_right_bounds p.1
    (axisResolve 0 (3/2) p.1 (p.1 + (v.1 + 0 * dt) * dt))
    (axisResolve_left_low p.1 (p.1 + (v.1 + 0 * dt) * dt) hx1) hx2
  have hyin := axisResolve_right_high p.2 (p.2 + (v.2 + -g * dt) * dt) hy2
  have hy := axisResolve_left_bounds p.2
    (axisResolve 16 (3/2) p.2 (p.2 + (v.2 + -g * dt) * dt)) hyin hy1
  exact ⟨hx.1, hx.2, hy.1, hy.2⟩

theorem C5_counterexample :
    ((0 : ℚ) ≤ 0 ∧ (0 : ℚ) ≤ 1 ∧ (1 : ℚ) ≤ 1) ∧
      (simulate_motion (100, 100) (0, 0) 0 1 (1 / 60)).1 = (100, 100) ∧
      ¬ ((simulate_motion (100, 100) (0, 0) 0 1 (1 / 60)).1.1 ≤ 16 + 1) := by
  refine ⟨by norm_num, by decide, by decide⟩

theorem C5_position_bound (p v : ℚ × ℚ) (g e dt ε : ℚ)
    (hg : 0 ≤ g) (he1 : 0 ≤ e) (he2 : e ≤ 1) (hε : 0 ≤ ε)
    (hx1 : 3/2 ≤ p.1) (hx2 : p.1 ≤ 29/2) (hy1 : 3/2 ≤ p.2) (hy2 : p.2 ≤ 29/2) :
    -ε ≤ (simulate_motion p v g e dt).1.1 ∧ (simulate_motion p v g e dt).1.1 ≤ 16 + ε ∧
      -ε ≤ (simulate_motion p v g e dt).1.2 ∧ (simulate_motion p v g e dt).1.2 ≤ 16 + ε := by
  obtain ⟨a, b, c, d⟩ := stepSpace_core p v g e dt hx1 hx2 hy1 hy2
  exact ⟨by linarith, by linarith, by linarith, by linarith⟩

theorem C5_position_bound_witness :
    -(0 : ℚ) ≤ (simulate_motion (8, 8) (3, 4) 9 (1/2) (1/60)).1.1 ∧
      (simulate_motion (8, 8) (3, 4) 9 (1/2) (1/60)).1.1 ≤ 16 + 0 ∧
      -(0 : ℚ) ≤ (simulate_motion (8, 8) (3, 4) 9 (1/2) (1/60)).1.2 ∧
      (simulate_motion (8, 8) (3, 4) 9 (1/2) (1/60)).1.2 ≤ 16 + 0 :=
  C5_position_bound (8, 8) (3, 4) 9 (1/2) (1/60) 0 (by norm_num) (by norm_num)
    (by norm_num) (by norm_num) (by norm_num) (by norm_num) (by norm_num) (by norm_num)

theorem C10_wall_thickness (p v : ℚ × ℚ) (g e dt : ℚ)
    (hx1 : 3/2 ≤ p.1) (hx2 : p.1 ≤ 29/2) (hy1 : 3/2 ≤ p.2) (hy2 : p.2 ≤ 29/2) :
    (∀ l ∈ (buildSpace p v g e).static_lines,
        l.radius = 1 ∧ contactDistX (buildSpace p v g e) l = 3/2 ∧
          contactDistY (buildSpace p v g e) l = 3/2) ∧
      0 < (simulate_motion p v g e dt).1.1 ∧ (simulate_motion p v g e dt).1.1 < 16 ∧
      0 < (simulate_motion p v g e dt).1.2 ∧ (simulate_motion p v g e dt).1.2 < 16 := by
  constructor
  · intro l hl
    simp only [buildSpace, List.mem_cons, List.not_mem_nil, or_false] at hl
    rcases hl with h | h | h | h <;> subst h <;>
      refine ⟨rfl, ?_, ?_⟩ <;> norm_num [contactDistX, contactDistY, buildSpace, SHAPE_SIDE_LENGTH]
  · obtain ⟨a, b, c, d⟩ := stepSpace_core p v g e dt hx1 hx2 hy1 hy2
    exact ⟨by linarith, by linarith, by linarith, by linarith⟩

theorem C10_wall_thickness_witness :
    (∀ l ∈ (buildSpace ((5 : ℚ), (5 : ℚ)) ((0 : ℚ), (0 : ℚ)) 7 1).static_lines,
        l.radius = 1 ∧ contactDistX (buildSpace ((5 : ℚ), (5 : ℚ)) ((0 : ℚ), (0 : ℚ)) 7 1) l = 3/2 ∧
          contactDistY (buildSpace ((5 : ℚ), (5 : ℚ)) ((0 : ℚ), (0 : ℚ)) 7 1) l = 3/2) ∧
      0 < (simulate_motion (5, 5) (0, 0) 7 1 (1/60)).1.1 ∧
      (simulate_motion (5, 5) (0, 0) 7 1 (1/60)).1.1 < 16 ∧
      0 < (simulate_motion (5, 5) (0, 0) 7 1 (1/60)).1.2 ∧
      (simulate_motion (5, 5) (0, 0) 7 1 (1/60)).1.2 < 16 :=
  C10_wall_thickness (5, 5) (0, 0) 7 1 (1/60) (by norm_num) (by norm_num)
    (by norm_num) (by norm_num)

lemma uniformSample_mem (lo hi u : ℚ) (hu0 : 0 ≤ u) (hu1 : u ≤ 1) (hlh : lo ≤ hi) :
    lo ≤ uniformSample lo hi u ∧ uniformSample lo hi u ≤ hi := by
  unfold uniformSample
  constructor <;> nlinarith

theorem C9_counterexample :
    (rangePairs (defaultRandomArgs (314159 / 100000))).length = 6 ∧
      (rangePairs (defaultRandomArgs (314159 / 100000))).length ≠ 8 :=
  ⟨rfl, by decide⟩

theorem C9_sampler_interface (npPi : ℚ) (cosF sinF : ℚ → ℚ) (a : RandomSeqArgs)
    (u1 u2 u3 u4 u5 u6 : ℚ)
    (hu1 : 0 ≤ u1) (hu1' : u1 ≤ 1) (hu2 : 0 ≤ u2) (hu2' : u2 ≤ 1)
    (hu3 : 0 ≤ u3) (hu3' : u3 ≤ 1) (hu4 : 0 ≤ u4) (hu4' : u4 ≤ 1)
    (hu5 : 0 ≤ u5) (hu5' : u5 ≤ 1) (hu6 : 0 ≤ u6) (hu6' : u6 ≤ 1)
    (hr1 : a.speed_min ≤ a.speed_max) (hr2 : a.direction_min ≤ a.direction_max)
    (hr3 : a.position_x_min ≤ a.position_x_max) (hr4 : a.position_y_min ≤ a.position_y_max)
    (hr5 : a.gravity_min ≤ a.gravity_max) (hr6 : a.restitution_min ≤ a.restitution_max) :
    (defaultRandomArgs npPi).sequence_length = 10 ∧
      (defaultRandomArgs npPi).frame_rate = 30 ∧
      rangePairs (defaultRandomArgs npPi) =
        [(0, 10), (0, 2 * npPi), (0, 16), (0, 16), (5, 10), (1/2, 1)] ∧
      (rangePairs a).length = 6 ∧
      (a.speed_min ≤ uniformSample a.speed_min a.speed_max u1 ∧
        uniformSample a.speed_min a.speed_max u1 ≤ a.speed_max) ∧
      (a.direction_min ≤ uniformSample a.direction_min a.direction_max u2 ∧
        uniformSample a.direction_min a.direction_max u2 ≤ a.direction_max) ∧
      (a.position_x_min ≤ uniformSample a.position_x_min a.position_x_max u3 ∧
        uniformSample a.position_x_min a.position_x_max u3 ≤ a.position_x_max) ∧
      (a.position_y_min ≤ uniformSample a.position_y_min a.position_y_max u4 ∧
        uniformSample a.position_y_min a.position_y_max u4 ≤ a.position_y_max) ∧
      (a.gravity_min ≤ uniformSample a.gravity_min a.gravity_max u5 ∧
        uniformSample a.gravity_min a.gravity_max u5 ≤ a.gravity_max) ∧
      (a.restitution_min ≤ uniformSample a.restitution_min a.restitution_max u6 ∧
        uniformSample a.restitution_min a.restitution_max u6 ≤ a.restitution_max) ∧
      generate_random_sequence cosF sinF a u1 u2 u3 u4 u5 u6 =
        generate_sequence cosF sinF a.sequence_length
          (uniformSample a.speed_min a.speed_max u1)
          (uniformSample a.direction_min a.direction_max u2)
          (uniformSample a.position_x_min a.position_x_max u3,
            uniformSample a.position_y_min a.position_y_max u4)
          (uniformSample a.gravity_min a.gravity_max u5)
          (uniformSample a.restitution_min a.restitution_max u6)
          a.frame_rate :=
  ⟨rfl, rfl, rfl, rfl,
    uniformSample_mem _ _ _ hu1 hu1' hr1,
    uniformSample_mem _ _ _ hu2 hu2' hr2,
    uniformSample_mem _ _ _ hu3 hu3' hr3,
    uniformSample_mem _ _ _ hu4 hu4' hr4,
    uniformSample_mem _ _ _ hu5 hu5' hr5,
    uniformSample_mem _ _ _ hu6 hu6' hr6,
    rfl⟩

theorem C9_sampler_interface_witness :
    (defaultRandomArgs (157 / 50)).sequence_length = 10 :=
  (C9_sampler_interface (157 / 50) (fun _ => 1) (fun _ => 0)
    (defaultRandomArgs (157 / 50)) (1/2) (1/2) (1/2) (1/2) (1/2) (1/2)
    (by norm_num) (by norm_num) (by norm_num) (by norm_num) (by norm_num) (by norm_num)
    (by norm_num) (by norm_num) (by norm_num) (by norm_num) (by norm_num) (by norm_num)
    (by norm_num [defaultRandomArgs]) (by norm_num [defaultRandomArgs])
    (by norm_num [defaultRandomArgs]) (by norm_num [defaultRandomArgs])
    (by norm_num [defaultRandomArgs]) (by norm_num [defaultRandomArgs])).1

end
